import Mathlib

/-
Verification of the content-moderation cache and filter pipeline of
multi-agent-chatter (Go), as a shallow embedding in Lean 4.

Modelling conventions, applied throughout:
* Go `time.Time`/`time.Duration` are modelled as natural numbers (an abstract
  clock tick); `time.Now()` becomes an explicit `now : Nat` argument threaded
  through each operation, and `time.Since(t) = now - t` (truncated subtraction;
  a future timestamp yields 0, matching the Go comparison `since > ttl` being
  false for negative durations).
* Go `map[K]V` is modelled as an association list with unique keys maintained
  by construction: assignment replaces the binding in place or appends,
  `delete` removes the binding, iteration walks the list in order.  Go map
  iteration order is unspecified; the list order is one admissible order, and
  every theorem below whose conclusion depends on iteration order assumes
  pairwise-distinct timestamps, for which the Go loops are deterministic.
* The cache key is the hex SHA-256 digest of `byte(contentType) || content`
  (`generateKey`).  The digest is injective on `(contentType, content)` up to
  hash collisions; it is modelled as the pair itself.  A digest is a 64-char
  hex string, so the Go sentinel comparison `oldestKey == ""` is modelled by
  the `Option` being `none`.
* The eviction callback (`SetEvictionCallback`) is modelled by an event log
  `evLog` in the state: each invocation of the callback appends the evicted
  key, exactly as the repository's tests record evicted keys in a slice.
* Go `float64` scores/thresholds are modelled as `ℚ`; all constants involved
  (0.5, 0.7, 0.8, 0.9, 1.0, severities) are exactly representable in both.
* `interface{}` cache values are a type parameter `α`; a Go `nil` result is
  `none : Option α`.
-/

/-- Content type of `pkg/filter/model` (`types.go`): a byte enum
text=0, image=1, audio=2, video=3. -/
inductive ContentType where
  | text
  | image
  | audio
  | video
deriving DecidableEq, Repr

/-- Logical cache key: the `(ContentType, Content)` pair that
`generateKey` digests (modelled as the pair itself, see header). -/
abbrev CKey := ContentType × String

/-- Association-list lookup, first binding wins (Go map read `m[k]`). -/
def lookupKey {κ β : Type} [DecidableEq κ] : List (κ × β) → κ → Option β
  | [], _ => none
  | (k', v) :: t, k => if k' = k then some v else lookupKey t k

/-- Association-list write (Go map assignment `m[k] = v`): replace the
existing binding in place, or append a new one. -/
def insertKey {κ β : Type} [DecidableEq κ] : List (κ × β) → κ → β → List (κ × β)
  | [], k, v => [(k, v)]
  | (k', v') :: t, k, v =>
      if k' = k then (k, v) :: t else (k', v') :: insertKey t k v

/-- Association-list delete (Go `delete(m, k)`). -/
def eraseKey {κ β : Type} [DecidableEq κ] : List (κ × β) → κ → List (κ × β)
  | [], _ => []
  | (k', v') :: t, k => if k' = k then t else (k', v') :: eraseKey t k

/-!
## Variant 1 of `pkg/filter/cache_manager.go` (lines 1–375)

`CacheEntry` carries `Value, Size, Expiry, LastAccess, AccessCount`; on `Set`,
`Expiry = now + ttl` and `LastAccess = now`.  `Get` treats an entry as stale
when `now - Expiry > ttl`; `evictOldest` scans for the smallest `LastAccess`.
-/

namespace V1

/-- Variant-1 `CacheEntry` (cache_manager.go:53-59). -/
structure CacheEntry (α : Type) where
  value : α
  size : Nat
  expiry : Nat
  lastAccess : Nat
  accessCount : Nat
deriving DecidableEq, Repr

/-- Variant-1 `CacheManager` state (cache_manager.go:90-106): the `data` map,
capacity, TTL, hit/miss counters, and the eviction-callback log. -/
structure CacheManager (α : Type) where
  data : List (CKey × CacheEntry α)
  maxEntries : Nat
  ttl : Nat
  hits : Nat
  misses : Nat
  evLog : List CKey
deriving DecidableEq, Repr

/-- Source `NewCacheManager` (cache_manager.go:109-122). -/
def newCacheManager (α : Type) (maxEntries ttl : Nat) : CacheManager α :=
  { data := [], maxEntries := maxEntries, ttl := ttl,
    hits := 0, misses := 0, evLog := [] }

/-- Variant-1 `Get` (cache_manager.go:250-271): on a present key it bumps
`hits` and the entry's `AccessCount`; it then reports a miss only when
`time.Since(entry.Expiry) > ttl`, i.e. `now - expiry > ttl`. -/
def get {α : Type} (cm : CacheManager α) (now : Nat) (ct : ContentType)
    (content : String) : (Option α × Bool) × CacheManager α :=
  let key : CKey := (ct, content)
  match lookupKey cm.data key with
  | some entry =>
      let cm' := { cm with
        hits := cm.hits + 1,
        data := insertKey cm.data key { entry with accessCount := entry.accessCount + 1 } }
      if now - entry.expiry > cm.ttl then ((none, false), cm')
      else ((some entry.value, true), cm')
  | none => ((none, false), { cm with misses := cm.misses + 1 })

/-- The `for key, entry := range cm.data` scan of variant-1 `evictOldest`
(cache_manager.go:298-309): keep the entry with the smallest `LastAccess`,
strictly-before comparison, first-seen wins on ties. -/
def oldestByAccess {α : Type} (acc : Option (CKey × Nat)) :
    List (CKey × CacheEntry α) → Option (CKey × Nat)
  | [] => acc
  | (k, e) :: rest =>
      oldestByAccess
        (match acc with
         | none => some (k, e.lastAccess)
         | some (k0, t0) =>
             if e.lastAccess < t0 then some (k, e.lastAccess) else some (k0, t0))
        rest

/-- Variant-1 `evictOldest` (cache_manager.go:298-318). -/
def evictOldest {α : Type} (cm : CacheManager α) : CacheManager α :=
  match oldestByAccess none cm.data with
  | none => cm
  | some (k, _) => { cm with data := eraseKey cm.data k, evLog := cm.evLog ++ [k] }

/-- Variant-1 `Set` (cache_manager.go:274-295): evict if at capacity, then
insert with `Expiry = now + ttl`, `LastAccess = now`, `AccessCount = 0`. -/
def set {α : Type} (cm : CacheManager α) (now : Nat) (ct : ContentType)
    (content : String) (value : α) (size : Nat) : CacheManager α :=
  let key : CKey := (ct, content)
  let cm := if cm.data.length ≥ cm.maxEntries then evictOldest cm else cm
  let entry : CacheEntry α :=
    { value := value, size := size, expiry := now + cm.ttl,
      lastAccess := now, accessCount := 0 }
  { cm with data := insertKey cm.data key entry }

end V1

/-!
## Variant 2 of `pkg/filter/cache_manager.go` (lines 376–803)

`CacheEntry` carries `Value, Timestamp, AccessCount, Size`; `Get` treats an
entry as stale when `now - Timestamp > ttl`; `evictOldest` scans for the
smallest `Timestamp`; `BatchSet` pre-computes an eviction count and calls
`evictBatch`, which sorts all entries by timestamp and removes the first
`min(count, len)` of them.
-/

namespace V2

/-- Variant-2 `CacheEntry` (cache_manager.go:423-428). -/
structure CacheEntry (α : Type) where
  value : α
  timestamp : Nat
  accessCount : Nat
  size : Nat
deriving DecidableEq, Repr

/-- Variant-2 `CacheManager` state (cache_manager.go:452-468).  `totalTime`
is the accumulated `BatchGet` latency used by `GetStats`. -/
structure CacheManager (α : Type) where
  cache : List (CKey × CacheEntry α)
  maxEntries : Nat
  ttl : Nat
  hits : Nat
  misses : Nat
  totalTime : ℚ
  evLog : List CKey
deriving DecidableEq, Repr

/-- Variant-2 `BatchSetItem` (cache_manager.go:438-443). -/
structure BatchSetItem (α : Type) where
  contentType : ContentType
  content : String
  value : α
  size : Nat
deriving DecidableEq, Repr

/-- Source `NewCacheManager` (cache_manager.go:471-484). -/
def newCacheManager (α : Type) (maxEntries ttl : Nat) : CacheManager α :=
  { cache := [], maxEntries := maxEntries, ttl := ttl,
    hits := 0, misses := 0, totalTime := 0, evLog := [] }

/-- Variant-2 `Get` (cache_manager.go:612-633): on a present key it bumps
`hits` and the entry's `AccessCount` (writing the entry back), then reports a
miss when `time.Since(entry.Timestamp) > ttl`; on an absent key it bumps
`misses`. -/
def get {α : Type} (cm : CacheManager α) (now : Nat) (ct : ContentType)
    (content : String) : (Option α × Bool) × CacheManager α :=
  let key : CKey := (ct, content)
  match lookupKey cm.cache key with
  | some entry =>
      let cm' := { cm with
        hits := cm.hits + 1,
        cache := insertKey cm.cache key { entry with accessCount := entry.accessCount + 1 } }
      if now - entry.timestamp > cm.ttl then ((none, false), cm')
      else ((some entry.value, true), cm')
  | none => ((none, false), { cm with misses := cm.misses + 1 })

/-- The `for key, entry := range cm.cache` scan of variant-2 `evictOldest`
(cache_manager.go:663-669): keep the entry with the smallest `Timestamp`,
strictly-before comparison, first-seen wins on ties. -/
def oldestByTimestamp {α : Type} (acc : Option (CKey × Nat)) :
    List (CKey × CacheEntry α) → Option (CKey × Nat)
  | [] => acc
  | (k, e) :: rest =>
      oldestByTimestamp
        (match acc with
         | none => some (k, e.timestamp)
         | some (k0, t0) =>
             if e.timestamp < t0 then some (k, e.timestamp) else some (k0, t0))
        rest

/-- Variant-2 `evictOldest` (cache_manager.go:659-678): delete the entry with
the oldest insertion `Timestamp`, firing the eviction callback for it. -/
def evictOldest {α : Type} (cm : CacheManager α) : CacheManager α :=
  match oldestByTimestamp none cm.cache with
  | none => cm
  | some (k, _) => { cm with cache := eraseKey cm.cache k, evLog := cm.evLog ++ [k] }

/-- Variant-2 `Set` (cache_manager.go:636-656): evict if at capacity, then
insert with `Timestamp = now`, `AccessCount = 0`. -/
def set {α : Type} (cm : CacheManager α) (now : Nat) (ct : ContentType)
    (content : String) (value : α) (size : Nat) : CacheManager α :=
  let key : CKey := (ct, content)
  let cm := if cm.cache.length ≥ cm.maxEntries then evictOldest cm else cm
  let entry : CacheEntry α :=
    { value := value, timestamp := now, accessCount := 0, size := size }
  { cm with cache := insertKey cm.cache key entry }

/-- Insert one `(key, timestamp)` pair into a timestamp-sorted list
(strict `Before` comparison, as in the `sort.Slice` comparator). -/
def insertByTs (p : CKey × Nat) : List (CKey × Nat) → List (CKey × Nat)
  | [] => [p]
  | q :: rest => if p.2 < q.2 then p :: q :: rest else q :: insertByTs p rest

/-- The `sort.Slice(candidates, ...)` of `evictBatch`
(cache_manager.go:791-793): sort eviction candidates by ascending timestamp. -/
def sortByTs : List (CKey × Nat) → List (CKey × Nat)
  | [] => []
  | p :: rest => insertByTs p (sortByTs rest)

/-- Variant-2 `evictBatch` (cache_manager.go:775-803): collect all
`(key, Timestamp)` candidates, sort ascending, and delete the first
`i < count && i < len(candidates)` of them, firing the callback for each. -/
def evictBatch {α : Type} (cm : CacheManager α) (count : Nat) : CacheManager α :=
  let candidates := cm.cache.map (fun p => (p.1, p.2.timestamp))
  let victims := (sortByTs candidates).take count
  victims.foldl
    (fun cm p => { cm with cache := eraseKey cm.cache p.1, evLog := cm.evLog ++ [p.1] })
    cm

/-- Variant-2 `BatchSet` (cache_manager.go:744-772): pre-compute
`needToEvict = len(cache) + len(items) - maxEntries` (Go `int` arithmetic,
may be negative), call `evictBatch` when positive, then insert every item
with the shared `Timestamp = now`. -/
def batchSet {α : Type} (cm : CacheManager α) (now : Nat)
    (items : List (BatchSetItem α)) : CacheManager α :=
  let needToEvict : Int := (cm.cache.length : Int) + (items.length : Int) - (cm.maxEntries : Int)
  let cm := if needToEvict > 0 then evictBatch cm needToEvict.toNat else cm
  items.foldl
    (fun cm item =>
      let entry : CacheEntry α :=
        { value := item.value, timestamp := now, accessCount := 0, size := item.size }
      { cm with cache := insertKey cm.cache (item.contentType, item.content) entry })
    cm

/-- The fields of variant-2 `CacheStats` (cache_manager.go:388-407) that
`GetStats` actually fills in (`TypeStats` is omitted here; `ExpiredEntries`
is never written by `GetStats` and stays at its zero value). -/
structure CacheStats where
  size : Nat
  memoryUsage : Nat
  hitRate : ℚ
  avgAccessTime : ℚ
  expiredEntries : Nat
deriving DecidableEq, Repr

/-- Variant-2 `GetStats` (cache_manager.go:528-578), restricted to the
whole-cache fields: `Size`, `MemoryUsage` (sum of entry sizes), and — only
when `hits + misses > 0` — `HitRate = hits / (hits + misses)` and
`AvgAccessTime = totalTime / (hits + misses)`. -/
def getStats {α : Type} (cm : CacheManager α) : CacheStats :=
  { size := cm.cache.length,
    memoryUsage := (cm.cache.map (fun p => p.2.size)).foldl (· + ·) 0,
    hitRate :=
      if cm.hits + cm.misses > 0 then
        (cm.hits : ℚ) / ((cm.hits : ℚ) + (cm.misses : ℚ))
      else 0,
    avgAccessTime :=
      if cm.hits + cm.misses > 0 then
        cm.totalTime / (((cm.hits : ℚ) + (cm.misses : ℚ)))
      else 0,
    expiredEntries := 0 }

end V2

/-!
## `pkg/filter/content_filter.go`

The filter pipeline: sensitive-word scan, regex scan, AI analysis, threshold.
Regex matching itself is not re-implemented; a compiled pattern is modelled as
its source string paired with its matching predicate `String → Bool`.  The
call `s.aiFilter.Analyze(ctx, content, contentType)` is modelled by its
outcome, passed in as an `Except String AIFilterResult` argument; the claims
below quantify over that outcome.
-/

/-- Source `AIFilterResult` (azure_provider.go:228-233): score, normalized
categories (`map[string]bool` as an association list), suggestions. -/
structure AIFilterResult where
  score : ℚ
  categories : List (String × Bool)
  suggestions : List String
deriving DecidableEq, Repr

/-- Source `FilterResult` (content_filter.go:36-42).  Go zero values for fields a
branch leaves unset: `suggestions = []`, `reason = ""`. -/
structure FilterResult where
  isClean : Bool
  score : ℚ
  categories : List (String × Bool)
  suggestions : List String
  reason : String
deriving DecidableEq, Repr

/-- Source `ContentFilterService` state (content_filter.go:45-51): the lower-cased
sensitive-word set (Go `map[string]struct{}`, modelled as the list of its
keys), the compiled patterns in registration order, and the filter level
(Go `type FilterLevel int`; constants Low=1, Medium=2, High=3). -/
structure ContentFilterService where
  sensitiveWords : List String
  regexPatterns : List (String × (String → Bool))
  level : Int

/-- Source `strings.ToLower`, character-wise (the claims only involve ASCII). -/
def strToLower (s : String) : String := ⟨s.data.map Char.toLower⟩

/-- Source `strings.Contains hay needle` on the underlying character lists. -/
def listContains [DecidableEq χ] : List χ → List χ → Bool
  | hay, needle =>
    match hay with
    | [] => needle.isEmpty
    | _ :: t => needle.isPrefixOf hay || listContains t needle

/-- Source `strings.Contains` on strings. -/
def strContains (hay needle : String) : Bool := listContains hay.data needle.data

/-- Source `NewContentFilterService` (content_filter.go:54-61). -/
def newContentFilterService (level : Int) : ContentFilterService :=
  { sensitiveWords := [], regexPatterns := [], level := level }

/-- Source `LoadSensitiveWords` (content_filter.go:64-71): adds the lower-cased
words to the set (does not clear existing ones). -/
def loadSensitiveWords (s : ContentFilterService) (words : List String) :
    ContentFilterService :=
  { s with sensitiveWords := s.sensitiveWords ++ words.map strToLower }

/-- Source `checkSensitiveWords` (content_filter.go:135-146): lower-case the content
and return the first word of the set that occurs as a substring. -/
def checkSensitiveWords (s : ContentFilterService) (content : String) :
    Bool × String :=
  let c := strToLower content
  match s.sensitiveWords.find? (fun w => strContains c w) with
  | some w => (true, w)
  | none => (false, "")

/-- Source `checkRegexPatterns` (content_filter.go:149-159): return the source of
the first pattern, in registration order, that matches. -/
def checkRegexPatterns (s : ContentFilterService) (content : String) :
    Bool × String :=
  match s.regexPatterns.find? (fun p => p.2 content) with
  | some p => (true, p.1)
  | none => (false, "")

/-- Source `shouldBlock` (content_filter.go:162-173): `switch s.level` with cases
Low(1) ⇒ score > 0.9, Medium(2) ⇒ > 0.7, High(3) ⇒ > 0.5, default ⇒ > 0.8. -/
def shouldBlock (s : ContentFilterService) (result : AIFilterResult) : Bool :=
  if s.level = 1 then decide (result.score > 9/10)
  else if s.level = 2 then decide (result.score > 7/10)
  else if s.level = 3 then decide (result.score > 1/2)
  else decide (result.score > 8/10)

/-- Source `Filter` (content_filter.go:88-132).  `analyze` is the outcome of the
stage-3 call `s.aiFilter.Analyze(ctx, content, contentType)`. -/
def filterContent (s : ContentFilterService)
    (analyze : Except String AIFilterResult) (content : String) :
    Except String FilterResult :=
  let sw := checkSensitiveWords s content
  if sw.1 then
    .ok { isClean := false, score := 1, categories := [("sensitive_words", true)],
          suggestions := [], reason := "Contains sensitive word: " ++ sw.2 }
  else
    let rp := checkRegexPatterns s content
    if rp.1 then
      .ok { isClean := false, score := 8/10, categories := [("pattern_match", true)],
            suggestions := [], reason := "Matches forbidden pattern: " ++ rp.2 }
    else
      match analyze with
      | .error e => .error ("AI filter error: " ++ e)
      | .ok aiResult =>
          if shouldBlock s aiResult then
            .ok { isClean := false, score := aiResult.score,
                  categories := aiResult.categories,
                  suggestions := aiResult.suggestions,
                  reason := "AI model detected inappropriate content" }
          else
            .ok { isClean := true, score := aiResult.score,
                  categories := aiResult.categories,
                  suggestions := aiResult.suggestions, reason := "" }

/-!
## `StandardizeCategories` (pkg/filter/ai_provider.go:75-115)

The raw `categories : map[string]interface{}` is modelled as an association
list with rational values: the Go code only acts on values that type-assert
to `float64`, and every call site in the repository stores a numeric score.
-/

/-- Source `CategoryMapping` (ai_provider.go:68-72). -/
structure CategoryMapping where
  providerCategory : String
  standardCategory : String
  severity : ℚ
deriving DecidableEq, Repr

/-- The static `mappings` table of `StandardizeCategories`
(ai_provider.go:77-102); an unknown provider name maps to no triples
(the `if ok` branch is skipped and the empty result is returned). -/
def categoryMappings (providerName : String) : List CategoryMapping :=
  if providerName = "openai" then
    [⟨"hate", "hate_speech", 1⟩, ⟨"sexual", "adult_content", 1⟩,
     ⟨"violence", "violence", 1⟩, ⟨"self-harm", "self_harm", 1⟩]
  else if providerName = "azure" then
    [⟨"Adult", "adult_content", 1⟩, ⟨"Violence", "violence", 1⟩,
     ⟨"Hate", "hate_speech", 1⟩, ⟨"SelfHarm", "self_harm", 1⟩]
  else if providerName = "google" then
    [⟨"adult", "adult_content", 1⟩, ⟨"violence", "violence", 1⟩,
     ⟨"hate", "hate_speech", 1⟩, ⟨"harassment", "harassment", 1⟩]
  else if providerName = "tencent" then
    [⟨"Porn", "adult_content", 1⟩, ⟨"Terror", "violence", 1⟩,
     ⟨"Ad", "advertisement", 1/2⟩, ⟨"Abuse", "hate_speech", 1⟩]
  else []

/-- The loop body of `StandardizeCategories` (ai_provider.go:106-112): if the
provider returned the mapped label with score `≥` the severity threshold,
set `result[mapping.StandardCategory] = true`. -/
def flagCategory (categories : List (String × ℚ))
    (result : List (String × Bool)) (mapping : CategoryMapping) :
    List (String × Bool) :=
  match lookupKey categories mapping.providerCategory with
  | some score =>
      if score ≥ mapping.severity then
        insertKey result mapping.standardCategory true
      else result
  | none => result

/-- Source `StandardizeCategories` (ai_provider.go:75-115): for each mapping triple
of the provider, flag the standard category iff the provider returned the
mapped label with score `≥` the severity threshold; labels without a mapping
triple are dropped. -/
def standardizeCategories (providerName : String)
    (categories : List (String × ℚ)) : List (String × Bool) :=
  (categoryMappings providerName).foldl (flagCategory categories) []

/-!
## Provider construction (`ai_provider.go`, `*_provider.go`)

Only construction-time validation is modelled; the network methods are out of
scope.  `ProviderType` is a Go string type; the constants are
"openai", "azure", "google", "tencent".
-/

/-- Source `ProviderConfig` (ai_provider.go:33-39). -/
structure ProviderConfig where
  providerType : String
  apiKey : String
  apiSecret : String
  region : String
  endpoint : String
deriving DecidableEq, Repr

/-- Source `BaseProvider` (ai_provider.go:58-61). -/
structure BaseProvider where
  config : ProviderConfig
  name : String
deriving DecidableEq, Repr

/-- Source `OpenAIProvider` (openai_provider.go:8-10). -/
structure OpenAIProvider where
  base : BaseProvider
deriving DecidableEq, Repr

/-- Source `AzureProvider` (azure_provider.go:12-15). -/
structure AzureProvider where
  base : BaseProvider
  endpoint : String
deriving DecidableEq, Repr

/-- Source `GoogleProvider` (google_provider.go:11-15). -/
structure GoogleProvider where
  base : BaseProvider
  projectID : String
deriving DecidableEq, Repr

/-- Source `TencentProvider` (tencent_provider.go:18-23); its private cache is out
of scope here. -/
structure TencentProvider where
  base : BaseProvider
  secretKey : String
  region : String
deriving DecidableEq, Repr

/-- Source `NewOpenAIProvider` (openai_provider.go:13-20): performs no validation
whatsoever and never returns an error. -/
def newOpenAIProvider (config : ProviderConfig) : Except String OpenAIProvider :=
  .ok { base := { config := config, name := "openai" } }

/-- Source `NewAzureProvider` (azure_provider.go:18-32): empty `APIKey` or empty
`Endpoint` is a construction error. -/
def newAzureProvider (config : ProviderConfig) : Except String AzureProvider :=
  if config.apiKey = "" then .error "Azure API key is required"
  else if config.endpoint = "" then .error "Azure endpoint is required"
  else .ok { base := { config := config, name := "azure" }, endpoint := config.endpoint }

/-- Source `NewGoogleProvider` (google_provider.go:18-33): empty `APIKey` or empty
`Region` (which stores the project ID) is a construction error. -/
def newGoogleProvider (config : ProviderConfig) : Except String GoogleProvider :=
  if config.apiKey = "" then .error "Google API key is required"
  else if config.region = "" then .error "Google project ID is required"
  else .ok { base := { config := config, name := "google" }, projectID := config.region }

/-- Source `NewTencentProvider` (tencent_provider.go:26-46): empty `APIKey` or empty
`APISecret` is a construction error; an empty `Region` is defaulted to
"ap-guangzhou" before the provider is built. -/
def newTencentProvider (config : ProviderConfig) : Except String TencentProvider :=
  if config.apiKey = "" then .error "Tencent API key is required"
  else if config.apiSecret = "" then .error "Tencent API secret is required"
  else
    let config :=
      if config.region = "" then { config with region := "ap-guangzhou" } else config
    .ok { base := { config := config, name := "tencent" },
          secretKey := config.apiSecret, region := config.region }

/-- The `AIProvider` interface value returned by the factory: a closed sum
over the four implementations. -/
inductive AIProvider where
  | openai : OpenAIProvider → AIProvider
  | azure : AzureProvider → AIProvider
  | google : GoogleProvider → AIProvider
  | tencent : TencentProvider → AIProvider
deriving DecidableEq, Repr

/-- Source `NewAIProvider` (ai_provider.go:42-55): dispatch on `config.Type`;
an unknown type is a construction error. -/
def newAIProvider (config : ProviderConfig) : Except String AIProvider :=
  if config.providerType = "openai" then (newOpenAIProvider config).map .openai
  else if config.providerType = "azure" then (newAzureProvider config).map .azure
  else if config.providerType = "google" then (newGoogleProvider config).map .google
  else if config.providerType = "tencent" then (newTencentProvider config).map .tencent
  else .error ("unsupported AI provider type: " ++ config.providerType)

/-!
## `pkg/filter/cache_monitor.go`

The monitor's construction and its per-tick metric evaluation `checkMetrics`.
File/logger I/O is out of scope (it can only fail on filesystem errors).
A Go nil `Thresholds` map is `none`; reading a key from a nil (or missing)
map yields the zero value 0.  `checkMetrics` divides by `1024*1024` and by
`stats.Size` in `ℚ` exactly as the Go code does in `float64`; all inputs used
in the theorems below keep those divisions away from the float/ℚ
division-by-zero discrepancy.
-/

/-- Source `MonitorConfig` (cache_monitor.go:13-25); the alert callback is modelled
by `checkMetrics` returning the list of fired alerts. -/
structure MonitorConfig where
  interval : Nat
  logPath : String
  thresholds : Option (List (String × ℚ))
deriving DecidableEq, Repr

/-- Source `DefaultThresholds` (cache_monitor.go:28-33). -/
def defaultThresholds : List (String × ℚ) :=
  [("hit_rate_min", 7/10), ("memory_usage_max", 100000000),
   ("avg_access_time_max", 100), ("expired_ratio_max", 1/5)]

/-- Source `CacheMonitor` (cache_monitor.go:36-41), restricted to the `config`
field the metric checks read. -/
structure CacheMonitor where
  config : MonitorConfig
deriving DecidableEq, Repr

/-- Source `NewCacheMonitor` (cache_monitor.go:44-89), with the filesystem steps
elided.  It mutates its local `config` copy (interval and log-path defaults),
builds the monitor struct *from that copy*, and only afterwards assigns
`DefaultThresholds` to the local copy when `Thresholds` is nil; the local
copy's thresholds are then pushed into the cache via `SetThreshold`.  The
returned pair is `(the monitor, the thresholds pushed into the cache)`. -/
def newCacheMonitor (config : MonitorConfig) : CacheMonitor × List (String × ℚ) :=
  let config := if config.interval = 0 then { config with interval := 60000 } else config
  let config := if config.logPath = "" then { config with logPath := "cache_stats.log" } else config
  let monitor : CacheMonitor := { config := config }
  let config :=
    if config.thresholds = none then { config with thresholds := some defaultThresholds }
    else config
  (monitor, config.thresholds.getD [])

/-- Go map read `thresholds[name]` where the map may be nil: the zero value
0 when the map is nil or the key is absent. -/
def thresholdOf (t : Option (List (String × ℚ))) (name : String) : ℚ :=
  match t with
  | none => 0
  | some l => (lookupKey l name).getD 0

/-- The four alerts `checkMetrics` can fire, in source order. -/
inductive Alert where
  | highMemoryUsage
  | lowHitRate
  | highAvgAccessTime
  | highExpiredShare
deriving DecidableEq, Repr

/-- Source `checkMetrics` (cache_monitor.go:134-160): each threshold is read from
`m.config.Thresholds`; the fired alerts are returned in source order. -/
def checkMetrics (m : CacheMonitor) (stats : V2.CacheStats) : List Alert :=
  let t := m.config.thresholds
  (if (stats.memoryUsage : ℚ) / (1024 * 1024) > thresholdOf t "memory_usage_max" / (1024 * 1024)
   then [.highMemoryUsage] else [])
  ++ (if stats.hitRate < thresholdOf t "hit_rate_min" then [.lowHitRate] else [])
  ++ (if stats.avgAccessTime > thresholdOf t "avg_access_time_max"
      then [.highAvgAccessTime] else [])
  ++ (if (stats.expiredEntries : ℚ) / (stats.size : ℚ) > thresholdOf t "expired_ratio_max"
      then [.highExpiredShare] else [])

/-!
## Helper lemmas
-/

/-- Reading back the key just written (Go map semantics). -/
theorem lookupKey_insertKey_self {κ β : Type} [DecidableEq κ]
    (l : List (κ × β)) (k : κ) (v : β) :
    lookupKey (insertKey l k v) k = some v := by
  induction l with
  | nil => simp [insertKey, lookupKey]
  | cons hd t ih =>
      obtain ⟨k', v'⟩ := hd
      by_cases h : k' = k
      · simp [insertKey, lookupKey, h]
      · simp [insertKey, lookupKey, h, ih]

/-- Writing one key leaves the others unchanged (Go map semantics). -/
theorem lookupKey_insertKey_ne {κ β : Type} [DecidableEq κ]
    (l : List (κ × β)) (k k' : κ) (v : β) (h : k ≠ k') :
    lookupKey (insertKey l k v) k' = lookupKey l k' := by
  induction l with
  | nil => simp [insertKey, lookupKey, h]
  | cons hd t ih =>
      obtain ⟨k1, v1⟩ := hd
      by_cases h1 : k1 = k
      · subst h1
        simp [insertKey, lookupKey, h]
      · simp [insertKey, lookupKey, h1, ih]

/-- Specification of the variant-2 `evictOldest` scan: the result is a
`(key, timestamp)` pair drawn from the accumulator or the list, its timestamp
is a lower bound for the whole list, and it never exceeds the accumulator. -/
theorem oldestByTimestamp_spec {α : Type} :
    ∀ (l : List (CKey × V2.CacheEntry α)) (acc : Option (CKey × Nat)) (k : CKey) (t : Nat),
      V2.oldestByTimestamp acc l = some (k, t) →
      (acc = some (k, t) ∨ ∃ p ∈ l, p.1 = k ∧ p.2.timestamp = t) ∧
        (∀ p ∈ l, t ≤ p.2.timestamp) ∧ (∀ a b, acc = some (a, b) → t ≤ b) := by
  intro l
  induction l with
  | nil =>
      intro acc k t h
      simp only [V2.oldestByTimestamp] at h
      subst h
      refine ⟨Or.inl rfl, by simp, ?_⟩
      intro a b hab
      cases hab
      exact le_refl t
  | cons hd rest ih =>
      obtain ⟨k1, e1⟩ := hd
      intro acc k t h
      cases acc with
      | none =>
          simp only [V2.oldestByTimestamp] at h
          have hspec := ih (some (k1, e1.timestamp)) k t h
          obtain ⟨hmem, hmin, hacc⟩ := hspec
          have ht1 : t ≤ e1.timestamp := hacc k1 e1.timestamp rfl
          refine ⟨?_, ?_, ?_⟩
          · rcases hmem with heq | ⟨p, hp, hpk, hpt⟩
            · cases heq
              exact Or.inr ⟨(k1, e1), List.mem_cons_self _ _, rfl, rfl⟩
            · exact Or.inr ⟨p, List.mem_cons_of_mem _ hp, hpk, hpt⟩
          · intro p hp
            rcases List.mem_cons.mp hp with heq | hmem'
            · subst heq; exact ht1
            · exact hmin p hmem'
          · intro a b hab
            cases hab
      | some accp =>
          obtain ⟨k0, t0⟩ := accp
          simp only [V2.oldestByTimestamp] at h
          by_cases hlt : e1.timestamp < t0
          · rw [if_pos hlt] at h
            have hspec := ih (some (k1, e1.timestamp)) k t h
            obtain ⟨hmem, hmin, hacc⟩ := hspec
            have ht1 : t ≤ e1.timestamp := hacc k1 e1.timestamp rfl
            refine ⟨?_, ?_, ?_⟩
            · rcases hmem with heq | ⟨p, hp, hpk, hpt⟩
              · cases heq
                exact Or.inr ⟨(k1, e1), List.mem_cons_self _ _, rfl, rfl⟩
              · exact Or.inr ⟨p, List.mem_cons_of_mem _ hp, hpk, hpt⟩
            · intro p hp
              rcases List.mem_cons.mp hp with heq | hmem'
              · subst heq; exact ht1
              · exact hmin p hmem'
            · intro a b hab
              cases hab
              exact le_trans ht1 (le_of_lt hlt)
          · rw [if_neg hlt] at h
            have hspec := ih (some (k0, t0)) k t h
            obtain ⟨hmem, hmin, hacc⟩ := hspec
            have ht0 : t ≤ t0 := hacc k0 t0 rfl
            have ht1 : t ≤ e1.timestamp := le_trans ht0 (le_of_not_lt hlt)
            refine ⟨?_, ?_, ?_⟩
            · rcases hmem with heq | ⟨p, hp, hpk, hpt⟩
              · cases heq
                exact Or.inl rfl
              · exact Or.inr ⟨p, List.mem_cons_of_mem _ hp, hpk, hpt⟩
            · intro p hp
              rcases List.mem_cons.mp hp with heq | hmem'
              · subst heq; exact ht1
              · exact hmin p hmem'
            · intro a b hab
              cases hab
              exact ht0

/-- The variant-2 `evictOldest` scan of a non-empty map always selects a
victim (a digest key is never the empty string, so the Go sentinel check
passes). -/
theorem oldestByTimestamp_isSome {α : Type} :
    ∀ (l : List (CKey × V2.CacheEntry α)) (x : CKey × Nat),
      ∃ y, V2.oldestByTimestamp (some x) l = some y := by
  intro l
  induction l with
  | nil => intro x; exact ⟨x, rfl⟩
  | cons hd rest ih =>
      obtain ⟨k1, e1⟩ := hd
      intro x
      obtain ⟨x0, t0⟩ := x
      simp only [V2.oldestByTimestamp]
      by_cases hlt : e1.timestamp < t0
      · rw [if_pos hlt]; exact ih _
      · rw [if_neg hlt]; exact ih _

/-- If `(k, e)` is strictly the oldest-inserted entry of a variant-2 cache —
every entry under a different key has a strictly larger `Timestamp` — then
`evictOldest` deletes exactly `k` and fires the callback for `k`. -/
theorem evictOldest_eq_of_strict_min {α : Type} (cm : V2.CacheManager α)
    (k : CKey) (e : V2.CacheEntry α)
    (hmem : (k, e) ∈ cm.cache)
    (hmin : ∀ p ∈ cm.cache, p.1 ≠ k → e.timestamp < p.2.timestamp) :
    V2.evictOldest cm =
      { cm with cache := eraseKey cm.cache k, evLog := cm.evLog ++ [k] } := by
  obtain ⟨kv, hkv⟩ : ∃ y, V2.oldestByTimestamp none cm.cache = some y := by
    rcases hcache : cm.cache with _ | ⟨⟨k1, e1⟩, rest⟩
    · rw [hcache] at hmem; cases hmem
    · rw [V2.oldestByTimestamp]
      exact oldestByTimestamp_isSome rest (k1, e1.timestamp)
  obtain ⟨k', t'⟩ := kv
  obtain ⟨hmem', hmin', -⟩ := oldestByTimestamp_spec cm.cache none k' t' hkv
  rcases hmem' with heq | ⟨p, hp, hpk, hpt⟩
  · cases heq
  · have hk : k' = k := by
      by_contra hne
      have hlt : e.timestamp < p.2.timestamp := by
        apply hmin p hp
        rw [hpk]
        exact hne
      have hle : t' ≤ e.timestamp := hmin' (k, e) hmem
      rw [hpt] at hlt
      exact absurd (lt_of_le_of_lt hle hlt) (lt_irrefl _)
    subst hk
    rw [V2.evictOldest, hkv]

/-!
## Claim theorems — cache manager
-/

/-- C1 failing input: TTL = 10, an entry inserted at time 0 (so its variant-1
`Expiry` is 10), read back at time 15. -/
def staleReadV1 : V1.CacheManager String :=
  V1.set (V1.newCacheManager String 3 10) 0 .text "k" "v" 1

/-- The same insertion in the variant-2 cache. -/
def staleReadV2 : V2.CacheManager String :=
  V2.set (V2.newCacheManager String 3 10) 0 .text "k" "v" 1

/-- C1: at time 15 the entry inserted at time 0 with TTL 10 satisfies
`now − insertionTime > TTL`, so the claim requires `Get` to return
`(nil, false)`; the variant-1 `Get` (which compares `now − Expiry > TTL`,
i.e. expires entries only at `insertionTime + 2·TTL`) instead serves
`(value, true)`, while the variant-2 `Get` returns the required miss. -/
theorem v1_get_serves_expired_entry :
    15 - 0 > 10 ∧
    (V1.get staleReadV1 15 .text "k").1 = (some "v", true) ∧
    (V2.get staleReadV2 15 .text "k").1 = (none, false) := by
  decide

/-- C2/C4 failing input: six distinct items batch-inserted into an empty
cache with `maxEntries = 5` (the input of the repository's own
`TestBatchSet`, which asserts a final size of 5 and one eviction). -/
def overCapacityBatch : List (V2.BatchSetItem String) :=
  [⟨.text, "key1", "v1", 100⟩, ⟨.image, "key2", "v2", 200⟩,
   ⟨.audio, "key3", "v3", 300⟩, ⟨.video, "key4", "v4", 400⟩,
   ⟨.text, "key5", "v5", 500⟩, ⟨.image, "key6", "v6", 600⟩]

/-- The state after that `BatchSet`. -/
def overCapacityRun : V2.CacheManager String :=
  V2.batchSet (V2.newCacheManager String 5 100) 1 overCapacityBatch

/-- C2: after a `BatchSet` of 6 distinct items into an empty cache with
`maxEntries = 5`, the cache holds 6 entries — strictly more than
`maxEntries` — because `evictBatch` can only evict entries that are already
present (here: none). -/
theorem batchSet_exceeds_maxEntries :
    overCapacityRun.maxEntries = 5 ∧
    overCapacityRun.cache.length = 6 ∧
    overCapacityRun.cache.length > overCapacityRun.maxEntries := by
  decide

/-- C4: on the same input the claimed eviction count
`currentSize + len(items) − maxEntries` is `0 + 6 − 5 = 1`, but the run
fires zero evictions (`evictBatch` stops at `len(candidates) = 0`). -/
theorem batchSet_evicts_fewer_than_claimed :
    ((V2.newCacheManager String 5 100).cache.length : Int)
      + (overCapacityBatch.length : Int) - 5 = 1 ∧
    overCapacityRun.evLog.length = 0 := by
  decide

/-- C3 scenario: `maxEntries = 3`, keys k1..k5 inserted in order at times
1..5 with distinct content. -/
def fifoScenario : V2.CacheManager String :=
  V2.set (V2.set (V2.set (V2.set (V2.set
    (V2.newCacheManager String 3 100)
    1 .text "k1" "v1" 1)
    2 .text "k2" "v2" 1)
    3 .text "k3" "v3" 1)
    4 .text "k4" "v4" 1)
    5 .text "k5" "v5" 1

/-- C3: when a `Set` hits the capacity bound, the single entry evicted is
the one with the strictly oldest insertion `Timestamp` (FIFO-by-insertion);
and in the k1..k5 scenario with `maxEntries = 3` the final cache is exactly
{k3, k4, k5} and the eviction callback fired exactly twice, for k1 then k2. -/
theorem set_evicts_oldest_insertion :
    (∀ (cm : V2.CacheManager String) (k : CKey) (e : V2.CacheEntry String)
        (now : Nat) (ct : ContentType) (content : String) (v : String) (sz : Nat),
      cm.cache.length ≥ cm.maxEntries →
      (k, e) ∈ cm.cache →
      (∀ p ∈ cm.cache, p.1 ≠ k → e.timestamp < p.2.timestamp) →
      V2.set cm now ct content v sz =
        { cm with
          cache := insertKey (eraseKey cm.cache k) (ct, content)
            { value := v, timestamp := now, accessCount := 0, size := sz },
          evLog := cm.evLog ++ [k] }) ∧
    fifoScenario.cache.map Prod.fst =
      [(.text, "k3"), (.text, "k4"), (.text, "k5")] ∧
    fifoScenario.evLog = [(.text, "k1"), (.text, "k2")] := by
  refine ⟨?_, by decide, by decide⟩
  intro cm k e now ct content v sz hlen hmem hmin
  have hevict := evictOldest_eq_of_strict_min cm k e hmem hmin
  simp only [V2.set, if_pos hlen, hevict]

/-- A concrete full cache: two entries, capacity 2, entry "b" strictly the
oldest-inserted. -/
def fullCache : V2.CacheManager String :=
  { cache := [((.text, "a"), ⟨"x", 5, 0, 1⟩), ((.text, "b"), ⟨"y", 2, 0, 1⟩)],
    maxEntries := 2, ttl := 100, hits := 0, misses := 0, totalTime := 0,
    evLog := [] }

/-- C3 witness: inserting a third key into `fullCache` evicts "b", the entry
with the oldest insertion timestamp. -/
theorem set_evicts_oldest_insertion_witness :
    V2.set fullCache 9 .text "c" "z" 1 =
      { fullCache with
        cache := insertKey (eraseKey fullCache.cache (.text, "b")) (.text, "c")
          { value := "z", timestamp := 9, accessCount := 0, size := 1 },
        evLog := fullCache.evLog ++ [(.text, "b")] } :=
  set_evicts_oldest_insertion.1 fullCache (.text, "b") ⟨"y", 2, 0, 1⟩
    9 .text "c" "z" 1 (by decide) (by decide) (by decide)

/-- C10: a `Get` on a key that is present but expired
(`now − Timestamp > TTL`) increments the *hit* counter, leaves the miss
counter alone, bumps the entry's `AccessCount`, and still returns
`(nil, false)`; consequently the `HitRate` reported by `GetStats` counts the
expired lookup as a hit. -/
theorem get_expired_counts_as_hit {α : Type}
    (cm : V2.CacheManager α) (now : Nat) (ct : ContentType) (content : String)
    (e : V2.CacheEntry α)
    (hlk : lookupKey cm.cache (ct, content) = some e)
    (hstale : now - e.timestamp > cm.ttl) :
    V2.get cm now ct content =
      ((none, false),
       { cm with
         hits := cm.hits + 1,
         cache := insertKey cm.cache (ct, content)
           { e with accessCount := e.accessCount + 1 } }) ∧
    (V2.getStats (V2.get cm now ct content).2).hitRate =
      ((cm.hits + 1 : Nat) : ℚ) / (((cm.hits + 1 : Nat) : ℚ) + ((cm.misses : Nat) : ℚ)) := by
  have hget : V2.get cm now ct content =
      ((none, false),
       { cm with
         hits := cm.hits + 1,
         cache := insertKey cm.cache (ct, content)
           { e with accessCount := e.accessCount + 1 } }) := by
    simp only [V2.get, hlk]
    rw [if_pos hstale]
  refine ⟨hget, ?_⟩
  rw [hget]
  simp only [V2.getStats]
  rw [if_pos (by omega : cm.hits + 1 + cm.misses > 0)]

/-- A concrete cache for the C10 witness: one entry inserted at time 0 with
`AccessCount = 7`, TTL 10, counters `hits = 2`, `misses = 1`. -/
def expiredEntryCache : V2.CacheManager String :=
  { cache := [((.text, "k"), ⟨"v", 0, 7, 1⟩)], maxEntries := 3, ttl := 10,
    hits := 2, misses := 1, totalTime := 0, evLog := [] }

/-- C10 witness: reading the expired entry at time 15 returns `(nil, false)`
yet bumps `hits` to 3 and `AccessCount` to 8, and `GetStats` then reports
`HitRate = 3/4`. -/
theorem get_expired_counts_as_hit_witness :
    V2.get expiredEntryCache 15 .text "k" =
      ((none, false),
       { expiredEntryCache with
         hits := 2 + 1,
         cache := insertKey expiredEntryCache.cache (.text, "k")
           ⟨"v", 0, 7 + 1, 1⟩ }) ∧
    (V2.getStats (V2.get expiredEntryCache 15 .text "k").2).hitRate =
      ((2 + 1 : Nat) : ℚ) / (((2 + 1 : Nat) : ℚ) + ((1 : Nat) : ℚ)) :=
  get_expired_counts_as_hit expiredEntryCache 15 .text "k" ⟨"v", 0, 7, 1⟩
    (by decide) (by decide)

/-!
## Claim theorems — content filter
-/

/-- C5: whenever some loaded sensitive word occurs (case-insensitively) in
the content, `Filter` short-circuits at stage 1: it returns
`IsClean = false`, `Score = 1.0`, category `sensitive_words`, a reason
naming a matched word from the set — and the result is independent of both
the AI analyzer outcome and the registered regex patterns. -/
theorem filter_sensitive_word_short_circuits
    (s : ContentFilterService) (content w : String)
    (analyze analyzeB : Except String AIFilterResult)
    (ps : List (String × (String → Bool)))
    (hcheck : checkSensitiveWords s content = (true, w)) :
    filterContent s analyze content =
      .ok { isClean := false, score := 1,
            categories := [("sensitive_words", true)], suggestions := [],
            reason := "Contains sensitive word: " ++ w } ∧
    w ∈ s.sensitiveWords ∧
    strContains (strToLower content) w = true ∧
    filterContent s analyze content = filterContent s analyzeB content ∧
    filterContent { s with regexPatterns := ps } analyze content =
      filterContent s analyze content := by
  have hfind : List.find? (fun x => strContains (strToLower content) x)
      s.sensitiveWords = some w := by
    simp only [checkSensitiveWords] at hcheck
    rcases hf : List.find? (fun x => strContains (strToLower content) x)
      s.sensitiveWords with _ | w'
    · rw [hf] at hcheck
      simp at hcheck
    · rw [hf] at hcheck
      simp at hcheck
      rw [hcheck]
  have hmem : w ∈ s.sensitiveWords := List.mem_of_find?_eq_some hfind
  have hpred : strContains (strToLower content) w = true := by
    have := List.find?_some hfind
    simpa using this
  have hcheck' : checkSensitiveWords { s with regexPatterns := ps } content
      = (true, w) := hcheck
  refine ⟨?_, hmem, hpred, ?_, ?_⟩
  · simp [filterContent, hcheck]
  · simp [filterContent, hcheck]
  · simp [filterContent, hcheck, hcheck']

/-- The C5 scenario service: sensitive-word set {"badword"} (loaded
lower-cased), no patterns, level Medium. -/
def badwordService : ContentFilterService :=
  loadSensitiveWords (newContentFilterService 2) ["badword"]

/-- C5 witness: `Filter("this is a badword test")` on `badwordService`
blocks at stage 1 with score 1.0 and a reason naming "badword", for an
arbitrary analyzer outcome. -/
theorem filter_sensitive_word_short_circuits_witness :
    filterContent badwordService (.ok { score := 0, categories := [], suggestions := [] })
        "this is a badword test" =
      .ok { isClean := false, score := 1,
            categories := [("sensitive_words", true)], suggestions := [],
            reason := "Contains sensitive word: " ++ "badword" } ∧
    "badword" ∈ badwordService.sensitiveWords :=
  ⟨(filter_sensitive_word_short_circuits badwordService "this is a badword test"
      "badword" (.ok { score := 0, categories := [], suggestions := [] })
      (.error "unavailable") [] (by decide)).1,
   (filter_sensitive_word_short_circuits badwordService "this is a badword test"
      "badword" (.error "unavailable") (.error "unavailable") [] (by decide)).2.1⟩

/-- C6: `shouldBlock` blocks exactly when the analyzer score exceeds the
configured level's threshold — Low(1): 0.9, Medium(2): 0.7, High(3): 0.5,
any unrecognized level: 0.8 — and, through the full `Filter` pipeline, an
analyzer score of 0.85 is clean at level Low and not clean at level High. -/
theorem shouldBlock_threshold_by_level :
    (∀ (s : ContentFilterService) (r : AIFilterResult),
      (s.level = 1 → (shouldBlock s r = true ↔ r.score > 9/10)) ∧
      (s.level = 2 → (shouldBlock s r = true ↔ r.score > 7/10)) ∧
      (s.level = 3 → (shouldBlock s r = true ↔ r.score > 1/2)) ∧
      (s.level ≠ 1 → s.level ≠ 2 → s.level ≠ 3 →
        (shouldBlock s r = true ↔ r.score > 8/10))) ∧
    filterContent (newContentFilterService 1)
        (.ok { score := 85/100, categories := [], suggestions := [] }) "x" =
      .ok { isClean := true, score := 85/100, categories := [],
            suggestions := [], reason := "" } ∧
    filterContent (newContentFilterService 3)
        (.ok { score := 85/100, categories := [], suggestions := [] }) "x" =
      .ok { isClean := false, score := 85/100, categories := [],
            suggestions := [], reason := "AI model detected inappropriate content" } := by
  refine ⟨?_, ?_, ?_⟩
  case refine_2 =>
    norm_num [filterContent, checkSensitiveWords, checkRegexPatterns,
      shouldBlock, newContentFilterService]
  case refine_3 =>
    norm_num [filterContent, checkSensitiveWords, checkRegexPatterns,
      shouldBlock, newContentFilterService]
  intro s r
  refine ⟨?_, ?_, ?_, ?_⟩
  · intro h1
    simp [shouldBlock, h1]
  · intro h2
    have h1 : s.level ≠ 1 := by rw [h2]; decide
    simp [shouldBlock, h1, h2]
  · intro h3
    have h1 : s.level ≠ 1 := by rw [h3]; decide
    have h2 : s.level ≠ 2 := by rw [h3]; decide
    simp [shouldBlock, h1, h2, h3]
  · intro h1 h2 h3
    simp [shouldBlock, h1, h2, h3]

/-- C6 witness: an unrecognized level (5) with score 0.85 blocks, because
0.85 exceeds the default threshold 0.8. -/
theorem shouldBlock_threshold_by_level_witness :
    shouldBlock { sensitiveWords := [], regexPatterns := [], level := 5 }
      { score := 85/100, categories := [], suggestions := [] } = true :=
  ((shouldBlock_threshold_by_level.1
      { sensitiveWords := [], regexPatterns := [], level := 5 }
      { score := 85/100, categories := [], suggestions := [] }).2.2.2
    (by decide) (by decide) (by decide)).mpr (by norm_num)

/-- C7 counterexample: `Standardize("tencent", {"Porn": 0.95})` yields the
empty map, not `{"adult_content": true}`, because the configured severity
threshold for the tencent "Porn" label is 1.0 and 0.95 < 1.0. -/
theorem standardize_tencent_porn95_empty :
    standardizeCategories "tencent" [("Porn", 95/100)] = [] ∧
    standardizeCategories "tencent" [("Porn", 95/100)] ≠ [("adult_content", true)] := by
  have h : standardizeCategories "tencent" [("Porn", 95/100)] = [] := by
    simp [standardizeCategories, categoryMappings, flagCategory, lookupKey]
    norm_num
  refine ⟨h, ?_⟩
  rw [h]
  decide

/-- Accumulator specification of the `StandardizeCategories` fold: a
category is flagged `true` in the result iff it was already flagged in the
accumulator or some mapping triple of the remaining list fired. -/
theorem foldl_flagCategory_spec (categories : List (String × ℚ)) :
    ∀ (ms : List CategoryMapping) (acc : List (String × Bool)) (cat : String),
      lookupKey (ms.foldl (flagCategory categories) acc) cat = some true ↔
      (lookupKey acc cat = some true ∨
       ∃ m ∈ ms, m.standardCategory = cat ∧
         ∃ sc, lookupKey categories m.providerCategory = some sc ∧ sc ≥ m.severity) := by
  intro ms
  induction ms with
  | nil =>
      intro acc cat
      simp
  | cons m ms ih =>
      intro acc cat
      rw [List.foldl_cons, ih]
      have hstep : lookupKey (flagCategory categories acc m) cat = some true ↔
          (lookupKey acc cat = some true ∨
           (m.standardCategory = cat ∧
            ∃ sc, lookupKey categories m.providerCategory = some sc ∧ sc ≥ m.severity)) := by
        rcases hlc : lookupKey categories m.providerCategory with _ | sc
        · simp [flagCategory, hlc]
        · by_cases hsev : sc ≥ m.severity
          · by_cases hcat : cat = m.standardCategory
            · subst hcat
              simp [flagCategory, hlc, hsev, lookupKey_insertKey_self]
            · have hne : m.standardCategory ≠ cat := fun h => hcat h.symm
              simp [flagCategory, hlc, hsev,
                lookupKey_insertKey_ne acc m.standardCategory cat true hne, hne]
          · simp [flagCategory, hlc, hsev]
      rw [hstep]
      constructor
      · rintro (((h | ⟨hc, hfire⟩) | ⟨m', hm', hc', hfire'⟩))
        · exact Or.inl h
        · exact Or.inr ⟨m, List.mem_cons_self _ _, hc, hfire⟩
        · exact Or.inr ⟨m', List.mem_cons_of_mem _ hm', hc', hfire'⟩
      · rintro (h | ⟨m', hm', hc', hfire'⟩)
        · exact Or.inl (Or.inl h)
        · rcases List.mem_cons.mp hm' with heq | hmem'
          · subst heq
            exact Or.inl (Or.inr ⟨hc', hfire'⟩)
          · exact Or.inr ⟨m', hmem', hc', hfire'⟩

/-- C7 amended: a normalized category is flagged `true` iff the provider
returned its mapped label with score at or above the configured severity
threshold (so for tencent "Porn", severity 1.0: a score of 1.0 flags
`adult_content`, while 0.95 and 0.3 both yield the empty map), and labels
with no mapping triple are silently dropped. -/
theorem standardize_flag_iff :
    (∀ (providerName : String) (categories : List (String × ℚ)) (cat : String),
      lookupKey (standardizeCategories providerName categories) cat = some true ↔
      ∃ m ∈ categoryMappings providerName, m.standardCategory = cat ∧
        ∃ sc, lookupKey categories m.providerCategory = some sc ∧ sc ≥ m.severity) ∧
    standardizeCategories "tencent" [("Porn", 1)] = [("adult_content", true)] ∧
    standardizeCategories "tencent" [("Porn", 95/100)] = [] ∧
    standardizeCategories "tencent" [("Porn", 3/10)] = [] ∧
    standardizeCategories "tencent" [("Unknown", 1)] = [] := by
  refine ⟨?_, by decide,
    by simp [standardizeCategories, categoryMappings, flagCategory, lookupKey];
       norm_num,
    by simp [standardizeCategories, categoryMappings, flagCategory, lookupKey];
       norm_num,
    by decide⟩
  intro providerName categories cat
  unfold standardizeCategories
  rw [foldl_flagCategory_spec categories (categoryMappings providerName) [] cat]
  simp [lookupKey]

/-- C7 amended witness: a tencent "Porn" score of exactly 1.0 reaches the
severity threshold, so `adult_content` is flagged. -/
theorem standardize_flag_iff_witness :
    lookupKey (standardizeCategories "tencent" [("Porn", 1)]) "adult_content"
      = some true :=
  (standardize_flag_iff.1 "tencent" [("Porn", 1)] "adult_content").mpr
    ⟨⟨"Porn", "adult_content", 1⟩, by decide, rfl, 1, by decide, by norm_num⟩

/-- An openai `ProviderConfig` with the APIKey (and everything else) empty. -/
def openAIEmptyKeyConfig : ProviderConfig :=
  { providerType := "openai", apiKey := "", apiSecret := "", region := "", endpoint := "" }

/-- C8 counterexample: constructing the OpenAI provider through the factory
with an empty `APIKey` succeeds — no construction-time validation error is
returned, contradicting the claim that a missing required credential fails
at construction. -/
theorem newAIProvider_openai_empty_key_succeeds :
    openAIEmptyKeyConfig.apiKey = "" ∧
    newAIProvider openAIEmptyKeyConfig =
      .ok (.openai { base := { config := openAIEmptyKeyConfig, name := "openai" } }) :=
  ⟨rfl, rfl⟩

/-- C8 amended: the factory rejects every unrecognized provider type, and
the Azure/Google/Tencent constructors validate their required credentials at
construction time, but the OpenAI constructor performs no validation and
always succeeds (even with every field empty). -/
theorem provider_construction_validation :
    (∀ config : ProviderConfig,
      config.providerType ≠ "openai" → config.providerType ≠ "azure" →
      config.providerType ≠ "google" → config.providerType ≠ "tencent" →
      newAIProvider config =
        .error ("unsupported AI provider type: " ++ config.providerType)) ∧
    (∀ config : ProviderConfig,
      newOpenAIProvider config = .ok { base := { config := config, name := "openai" } }) ∧
    (∀ config : ProviderConfig, config.apiKey = "" →
      newAzureProvider config = .error "Azure API key is required" ∧
      newGoogleProvider config = .error "Google API key is required" ∧
      newTencentProvider config = .error "Tencent API key is required") ∧
    (∀ config : ProviderConfig, config.apiKey ≠ "" → config.apiSecret = "" →
      newTencentProvider config = .error "Tencent API secret is required") ∧
    (∀ config : ProviderConfig, config.apiKey ≠ "" → config.endpoint = "" →
      newAzureProvider config = .error "Azure endpoint is required") ∧
    (∀ config : ProviderConfig, config.apiKey ≠ "" → config.region = "" →
      newGoogleProvider config = .error "Google project ID is required") := by
  refine ⟨?_, ?_, ?_, ?_, ?_, ?_⟩
  · intro config h1 h2 h3 h4
    simp [newAIProvider, h1, h2, h3, h4]
  · intro config
    rfl
  · intro config h
    exact ⟨by simp [newAzureProvider, h], by simp [newGoogleProvider, h],
           by simp [newTencentProvider, h]⟩
  · intro config h1 h2
    simp [newTencentProvider, h1, h2]
  · intro config h1 h2
    simp [newAzureProvider, h1, h2]
  · intro config h1 h2
    simp [newGoogleProvider, h1, h2]

/-- C8 amended witness: a config with the unrecognized type "deepseek" is a
construction error, and a tencent config with empty secret fails. -/
theorem provider_construction_validation_witness :
    newAIProvider
        { providerType := "deepseek", apiKey := "k", apiSecret := "s",
          region := "r", endpoint := "e" } =
      .error ("unsupported AI provider type: " ++ "deepseek") ∧
    newTencentProvider
        { providerType := "tencent", apiKey := "k", apiSecret := "",
          region := "r", endpoint := "e" } =
      .error "Tencent API secret is required" :=
  ⟨provider_construction_validation.1
      { providerType := "deepseek", apiKey := "k", apiSecret := "s",
        region := "r", endpoint := "e" }
      (by decide) (by decide) (by decide) (by decide),
   provider_construction_validation.2.2.2.1
      { providerType := "tencent", apiKey := "k", apiSecret := "",
        region := "r", endpoint := "e" }
      (by decide) (by decide)⟩

/-- C9 failing input: a `MonitorConfig` whose `Thresholds` map is nil. -/
def nilThresholdConfig : MonitorConfig :=
  { interval := 100, logPath := "log", thresholds := none }

/-- Stats seen on a sampling tick: 4 entries, no memory accounted, hit rate
0.5 (below the documented default `hit_rate_min = 0.7`). -/
def lowHitRateStats : V2.CacheStats :=
  { size := 4, memoryUsage := 0, hitRate := 1/2, avgAccessTime := 0,
    expiredEntries := 0 }

/-- C9: a monitor built from a nil-threshold config keeps `Thresholds = nil`
in its own `config` (the defaults are assigned to the local copy only after
the monitor struct was built, and pushed only into the cache), so its metric
evaluation compares against zero thresholds and raises no low-hit-rate alert
on a 0.5 hit rate — whereas evaluating the same stats against
`DefaultThresholds` does alert. -/
theorem monitor_nil_thresholds_not_defaulted :
    (newCacheMonitor nilThresholdConfig).1.config.thresholds = none ∧
    (newCacheMonitor nilThresholdConfig).2 = defaultThresholds ∧
    checkMetrics (newCacheMonitor nilThresholdConfig).1 lowHitRateStats = [] ∧
    checkMetrics
        { config := { nilThresholdConfig with thresholds := some defaultThresholds } }
        lowHitRateStats = [.lowHitRate] := by
  refine ⟨rfl, rfl, ?_, ?_⟩
  · simp [checkMetrics, thresholdOf, newCacheMonitor, nilThresholdConfig,
      lowHitRateStats]
  · simp [checkMetrics, thresholdOf, nilThresholdConfig, defaultThresholds,
      lookupKey, lowHitRateStats]
    norm_num
